import Mathlib

/- Shallow embedding of the query-time recommendation service of this
repository: the class `RecommendationService` in
src/api/services/recommendation.py together with the `Settings` class in
src/api/config.py.  Python floats are modelled as real numbers, the Vespa
document store and the Redis session cache as an abstract `Store` of total
lookup functions, and every external call an operation performs is recorded
in a trace of `Call` values so that theorems can speak about what was
dispatched.  Transport-level failures of the external services (the 500
branches of `_query_vespa` and `_get_recent_interactions`) are outside this
model: the store functions are total. -/

namespace RecSys

noncomputable section

/-- An embedding vector: a numpy float array / the `values` list of a Vespa
tensor field. -/
abbrev Vec := List ℝ

/-- Elementwise vector addition (numpy `+` on equal-length arrays). -/
def vadd (v w : Vec) : Vec := List.zipWith (· + ·) v w

/-- Scalar multiplication `a * v` (numpy broadcasting). -/
def vscale (a : ℝ) (v : Vec) : Vec := v.map (fun x => a * x)

/-- Elementwise division `v / t` (numpy broadcasting). -/
def vdiv (v : Vec) (t : ℝ) : Vec := v.map (fun x => x / t)

/-- `np.sum(vs, axis=0)`: the elementwise sum of a list of vectors.  The
service only evaluates it on nonempty lists. -/
def vsum : List Vec → Vec
  | [] => []
  | [v] => v
  | v :: w :: rest => vadd v (vsum (w :: rest))

/-- Sum of squared components of a vector. -/
def sumSq (v : Vec) : ℝ := (v.map (fun x => x ^ 2)).sum

/-- `np.linalg.norm(v)`: the Euclidean (L2) norm. -/
def norm2 (v : Vec) : ℝ := Real.sqrt (sumSq v)

/-- `normalize_vector` (src/api/services/recommendation.py lines 268-270):
`vector / norm if norm > 0 else vector`. -/
def normalize_vector (v : Vec) : Vec :=
  if 0 < norm2 v then vdiv v (norm2 v) else v

/-- The frozen reference instant hardcoded inside `_compute_realtime_vector`
(line 250): `datetime(2025, 11, 15, 14, 0, 0, tzinfo=ZoneInfo("Asia/Seoul")).timestamp()`,
that is 2025-11-15 05:00:00 UTC expressed in epoch seconds. -/
def NOW_TS : ℝ := 1763182800

/-- `HALF_LIFE = 1 * 60 * 60` (line 252), a constant local to the blender. -/
def HALF_LIFE : ℝ := 1 * 60 * 60

/-- `decay_lambda = np.log(2) / HALF_LIFE` (line 253). -/
def decay_lambda : ℝ := Real.log 2 / HALF_LIFE

/-- The decay weight the blender gives an event with timestamp `ts`
(lines 262-263): `np.exp(-decay_lambda * delta_t)` with
`delta_t = max(0, now - event_ts)` and the hardcoded `now`. -/
def decayW (ts : ℝ) : ℝ := Real.exp (-decay_lambda * max 0 (NOW_TS - ts))

/-- The two entity kinds handled by the service (`doc_type` strings). -/
inductive DocType where
  | user
  | product
deriving DecidableEq

/-- Schema name of a document type (the `doc_type` string itself). -/
def docName : DocType → String
  | .user => "user"
  | .product => "product"

/-- One recent-interaction event.  Redis stores it as the string
`"event_ts:id_value"`; `_compute_realtime_vector` splits on `":"` and
converts the first part with `float`.  The model keeps events already
parsed, so that parse step is the identity here. -/
structure Interaction where
  event_ts : ℝ
  id_value : String

/-- The field map the service projects out of an ANN hit: the service reads
these keys with `dict.get`, so an absent key is `none`, not an error. -/
structure Fields where
  pid : Option String
  name : Option String
  categories : Option (List String)
  uid : Option String
  country : Option String
  state : Option String
  zipcode : Option String
deriving DecidableEq

/-- Entity metadata as consumed by the service: of the whole metadata field
map only `segment_id` is ever read (`user_metadata.get("segment_id")`). -/
structure Meta where
  segment_id : Option String
deriving DecidableEq

/-- Modelled from the spec: a pre-ranked cold-start row with an explicit
integer `rank`, grouped by `strategy_id`.  The repository provisions
`user_cold_start` / `product_cold_start` Vespa schemas with exactly these
fields (src/workspace/vespa/definitions), but no code under src/api ever
queries them. -/
structure ColdEntry where
  rank : Int
  fields : Fields

/-- Abstract state of the two external services.  Each field is the
query-in / result-out contract of one of the YQL or Redis calls the service
performs.  `vectors d id mv` is the embedding of the first hit of the
`{d}_vector` schema for the given id and model version; `segments` the
`{d}_segment` lookup; `metadata` the parent `{d}` schema lookup; `recent`
the parsed Redis `lrange` window; `ann d q hits targetHits` the hit field
maps of the `nearestNeighbor` query with query tensor `q` (`none` models
Python `None` being forwarded); `coldStart` is the (spec-modelled)
cold-start table, which the runtime service never reads. -/
structure Store where
  vectors : DocType → String → String → Option Vec
  segments : DocType → String → Option Vec
  metadata : DocType → String → Option Meta
  recent : DocType → String → List Interaction
  ann : DocType → Option Vec → Nat → Nat → List Fields
  coldStart : DocType → String → List ColdEntry

/-- The settings attributes that src/api/services/recommendation.py reads
from `self.settings`.  Note: of these, only `recommend_hits` and
`recommend_target_hits` are actually declared on the `Settings` class in
src/api/config.py; `latest_model_version`, `recommend_alpha` and
`recommend_beta` are accessed by the service but declared nowhere. -/
structure ServiceSettings where
  latest_model_version : String
  recommend_alpha : ℝ
  recommend_beta : ℝ
  recommend_hits : Nat
  recommend_target_hits : Nat

/-- The `Settings` class of src/api/config.py: exactly the fields it
declares. -/
structure Settings where
  vespa_host : String
  vespa_port : Nat
  api_title : String
  api_version : String
  api_description : String
  recommend_hits : Nat
  recommend_target_hits : Nat

/-- The documented defaults of src/api/config.py. -/
def defaultSettings : Settings :=
  ⟨"vespa", 8080, "Recommendation Service API", "0.1.0",
   "API for User & Product Recommendation backed by Vespa", 5, 10⟩

/-- An `HTTPException` raised by the service: status code and detail. -/
inductive Err where
  | http (status : Nat) (detail : String)
deriving DecidableEq

/-- One external call performed by the service, in order of execution. -/
inductive Call where
  | fetchVecCall (d : DocType) (id_value : String) (model_version : String)
  | fetchSegCall (d : DocType) (segment_id : String)
  | fetchMetaCall (d : DocType) (id_value : String)
  | redisCall (d : DocType) (id_value : String)
  | batchFetchCall (d : DocType) (ids : List String) (model_version : String)
  | annCall (d : DocType) (q : Option Vec) (hits target_hits : Nat)

/-- Python truthiness of an optional vector: `None` and the empty list are
both falsy (`if not base_vector`). -/
def falsyV : Option Vec → Bool
  | none => true
  | some v => v.isEmpty

/-- Python `x if x else d` for an optional string (`None` and `""` falsy). -/
def pyOr : Option String → String → String
  | none, d => d
  | some v, d => if v = "" then d else v

/-- Truthiness view of `dict.get` for a string: collapses `""` to `none`
(`if not segment_id`). -/
def pyStr : Option String → Option String
  | none => none
  | some v => if v = "" then none else some v

/-- Detail string of the 404 raised by `_fetch_metadata` (line 146). -/
def metaMsg (d : DocType) (id_value : String) : String :=
  "Document '" ++ id_value ++ "' not found in " ++ docName d ++ " schema"

/-- Detail string of the 404 raised for a missing segment vector
(line 317). -/
def segMsg (segment_id : String) : String :=
  "Segment Document '" ++ segment_id ++ "' not found in user_segment schema."

/-- `_fetch_vector` (lines 72-95): first hit's embedding from the
`{d}_vector` schema for the id and the requested (or latest) model
version, `none` when there is no hit. -/
def fetch_vector (st : Store) (s : ServiceSettings) (d : DocType)
    (id_value : String) (model_version : Option String) : Option Vec × Call :=
  let mv := pyOr model_version s.latest_model_version
  (st.vectors d id_value mv, Call.fetchVecCall d id_value mv)

/-- `_fetch_segment_vector` (lines 100-120). -/
def fetch_segment_vector (st : Store) (d : DocType) (segment_id : String) :
    Option Vec × Call :=
  (st.segments d segment_id, Call.fetchSegCall d segment_id)

/-- `_fetch_metadata` (lines 125-146): the metadata fields of the first hit,
or an `HTTPException(404)` naming the id when there is no hit. -/
def fetch_metadata (st : Store) (d : DocType) (id_value : String) :
    Except Err Meta × Call :=
  (match st.metadata d id_value with
   | some m => Except.ok m
   | none => Except.error (Err.http 404 (metaMsg d id_value)),
   Call.fetchMetaCall d id_value)

/-- `_get_recent_interactions` (lines 151-168): the Redis
`lrange(key, 0, 9)` window, already parsed. -/
def get_recent_interactions (st : Store) (d : DocType) (id_value : String) :
    List Interaction × Call :=
  (st.recent d id_value, Call.redisCall d id_value)

/-- `_search_nearest` (lines 173-206): ANN query against the `{d}_vector`
schema; the hit and candidate-pool counts default to the settings values
only when the caller passes `None` (`is not None` check, not truthiness). -/
def search_nearest (st : Store) (s : ServiceSettings) (d : DocType)
    (query_vector : Option Vec) (hits target_hits : Option Nat) :
    List Fields × Call :=
  let h := hits.getD s.recommend_hits
  let th := target_hits.getD s.recommend_target_hits
  (st.ann d query_vector h th, Call.annCall d query_vector h th)

/-- `_compute_realtime_vector` (lines 211-281).  The batch Vespa query
restricts to the ids of `recent_interactions` and the resulting dict is
consulted only at those ids, so `vector_map` is modelled as the direct
store lookup; `vector_map` is empty exactly when no interaction id
resolves.  `now`, `HALF_LIFE` and `decay_lambda` are the hardcoded
constants above. -/
def compute_realtime_vector (st : Store) (s : ServiceSettings)
    (base_vector : Vec) (interaction_type : DocType)
    (recent_interactions : List Interaction) (model_version : Option String) :
    Vec × List Call :=
  if recent_interactions.isEmpty then (base_vector, [])
  else
    let mv := pyOr model_version s.latest_model_version
    let ids := recent_interactions.map (fun i => i.id_value)
    let vector_map : String → Option Vec := fun id => st.vectors interaction_type id mv
    let calls := [Call.batchFetchCall interaction_type ids mv]
    if recent_interactions.all (fun i => (vector_map i.id_value).isNone) then
      (base_vector, calls)
    else
      let acc := recent_interactions.foldl
        (fun (p : List Vec × ℝ) i =>
          match vector_map i.id_value with
          | none => p
          | some v => (p.1 ++ [vscale (decayW i.event_ts) v], p.2 + decayW i.event_ts))
        ([], 0)
      let recent_vector := normalize_vector (vdiv (vsum acc.1) acc.2)
      let combined := normalize_vector
        (vadd (vscale s.recommend_alpha base_vector)
              (vscale s.recommend_beta recent_vector))
      (combined, calls)

/-- Public shape of one product recommendation (pid, name, categories). -/
structure ProductRec where
  pid : Option String
  name : Option String
  categories : Option (List String)
deriving DecidableEq

/-- Public shape of one target user (uid, country, state, zipcode). -/
structure UserRec where
  uid : Option String
  country : Option String
  state : Option String
  zipcode : Option String
deriving DecidableEq

/-- Field projection of a raw hit for the product flow (line 323). -/
def projProduct (f : Fields) : ProductRec := ⟨f.pid, f.name, f.categories⟩

/-- Field projection of a raw hit for the user flow (line 347). -/
def projUser (f : Fields) : UserRec := ⟨f.uid, f.country, f.state, f.zipcode⟩

/-- `get_product_recommendations` (lines 286-323), the user → product
public operation, with its trace of external calls. -/
def get_product_recommendations (st : Store) (s : ServiceSettings) (uid : String) :
    Except Err (List ProductRec) × List Call :=
  let fv := fetch_vector st s .user uid none
  let ri := get_recent_interactions st .user uid
  let tail := fun (base_vector : Vec) (calls : List Call) =>
    let cr := compute_realtime_vector st s base_vector .product ri.1 none
    let sr := search_nearest st s .product (some cr.1) none none
    (Except.ok ((sr.1).map projProduct), calls ++ cr.2 ++ [sr.2])
  if falsyV fv.1 then
    let fm := fetch_metadata st .user uid
    match fm.1 with
    | .error e => (Except.error e, [fv.2, ri.2, fm.2])
    | .ok meta =>
      match pyStr meta.segment_id with
      | none => (Except.ok [], [fv.2, ri.2, fm.2])
      | some segment_id =>
        let sv := fetch_segment_vector st .user segment_id
        if falsyV sv.1 then
          (Except.error (Err.http 404 (segMsg segment_id)), [fv.2, ri.2, fm.2, sv.2])
        else tail (sv.1.getD []) [fv.2, ri.2, fm.2, sv.2]
  else tail (fv.1.getD []) [fv.2, ri.2]

/-- `get_target_users` (lines 328-347), the product → user public
operation: it fetches the product vector and dispatches the ANN search
with whatever `_fetch_vector` returned, `None` included. -/
def get_target_users (st : Store) (s : ServiceSettings) (pid : String) :
    Except Err (List UserRec) × List Call :=
  let fv := fetch_vector st s .product pid none
  let sr := search_nearest st s .user fv.1 none none
  (Except.ok ((sr.1).map projUser), [fv.2, sr.2])

/-- Modelled from the spec (section 4.3, RealtimeBlender): the blender with
an explicit injected clock `now` and configured `half_life`, `alpha`,
`beta`.  Events whose id does not resolve are dropped; with no events or no
resolvable embedding the base vector is returned unchanged; otherwise the
decay-weighted mean of the resolved embeddings is L2-normalized and
combined as `normalize(alpha * base + beta * recent)`. -/
def blend_spec (now half_life alpha beta : ℝ) (resolve : String → Option Vec)
    (base_vector : Vec) (recent_events : List Interaction) : Vec :=
  if recent_events.isEmpty then base_vector
  else if recent_events.all (fun e => (resolve e.id_value).isNone) then base_vector
  else
    let w := fun (e : Interaction) =>
      Real.exp (-(Real.log 2 / half_life) * max 0 (now - e.event_ts))
    let weighted := recent_events.filterMap
      (fun e => (resolve e.id_value).map (fun v => vscale (w e) v))
    let total := ((recent_events.filter (fun e => (resolve e.id_value).isSome)).map w).sum
    let recent_vector := normalize_vector (vdiv (vsum weighted) total)
    normalize_vector (vadd (vscale alpha base_vector) (vscale beta recent_vector))

/-- Modelled from the spec (section 4.2, ColdStartResolver flat list): the
pre-ranked entries of the fixed strategy `"global"`, ordered ascending by
`rank`, truncated to the configured result count, projected to their
fields.  No code under src/api implements this. -/
def resolve_cold_start_spec (st : Store) (s : ServiceSettings) (d : DocType) :
    List Fields :=
  (((st.coldStart d "global").insertionSort (fun a b => a.rank ≤ b.rank)).take
      s.recommend_hits).map (fun e => e.fields)

/-- `needle` occurs verbatim inside `hay`. -/
def mentions (needle hay : String) : Prop :=
  ∃ a b, hay.data = a ++ needle.data ++ b

/-- A settings valuation used in concrete instances (latest model version
`"m1"`, `alpha = beta = 1`, the config defaults 5 and 10 for the counts). -/
def s0 : ServiceSettings := ⟨"m1", 1, 1, 5, 10⟩

/-- A settings valuation with `alpha = 0` and `beta = 1`, so that the
blended vector is the normalized recent vector alone. -/
def s01 : ServiceSettings := ⟨"m1", 0, 1, 5, 10⟩

/-- A hit field map with every key absent. -/
def emptyFields : Fields := ⟨none, none, none, none, none, none, none⟩

/-- Marker field map of a user hit. -/
def uFields : Fields := ⟨none, none, none, some "u9", some "KR", none, none⟩

/-- Marker field map of a product hit. -/
def pFields : Fields := ⟨some "p9", some "prod9", none, none, none, none, none⟩

/-- Store in which product `"p1"` has metadata but no vector, and the ANN
oracle answers the `none` query on the user schema with a marker hit. -/
def st1 : Store :=
  ⟨fun _ _ _ => none,
   fun _ _ => none,
   fun d id => match d, id with
     | .product, "p1" => some ⟨none⟩
     | _, _ => none,
   fun _ _ => [],
   fun d q _ _ => match d, q with
     | .user, none => [uFields]
     | _, _ => [],
   fun _ _ => []⟩

/-- Store in which user `"u1"` has metadata without a `segment_id` and no
vector, while the (spec-modelled) cold-start table for strategy `"global"`
has one ranked row. -/
def st2 : Store :=
  ⟨fun _ _ _ => none,
   fun _ _ => none,
   fun d id => match d, id with
     | .user, "u1" => some ⟨none⟩
     | _, _ => none,
   fun _ _ => [],
   fun _ _ _ _ => [],
   fun d sid => match d, sid with
     | .user, "global" => [⟨1, pFields⟩]
     | _, _ => []⟩

/-- Store in which user `"u1"` has the non-unit vector `[2, 0]` under model
version `"m1"`, no recent interactions, and no metadata for any other id. -/
def st3 : Store :=
  ⟨fun d id mv => match d, id with
     | .user, "u1" => if mv = "m1" then some [2, 0] else none
     | _, _ => none,
   fun _ _ => none,
   fun _ _ => none,
   fun _ _ => [],
   fun _ _ _ _ => [],
   fun _ _ => []⟩

/-- Store with product vectors `"a" ↦ [1, 0]` and `"b" ↦ [0, 1]` and user
vector `"u1" ↦ [1, 0]`, all under model version `"m1"`. -/
def st4 : Store :=
  ⟨fun d id mv => match d, id with
     | .product, "a" => if mv = "m1" then some [1, 0] else none
     | .product, "b" => if mv = "m1" then some [0, 1] else none
     | .user, "u1" => if mv = "m1" then some [1, 0] else none
     | _, _ => none,
   fun _ _ => none,
   fun _ _ => none,
   fun _ _ => [],
   fun _ _ _ _ => [],
   fun _ _ => []⟩

/-- Store in which user `"u2"` has no vector but metadata carrying
`segment_id = "S1"`, the segment vector exists, and the product-side ANN
oracle returns one marker hit. -/
def st6 : Store :=
  ⟨fun _ _ _ => none,
   fun d sid => match d, sid with
     | .user, "S1" => some [1, 0]
     | _, _ => none,
   fun d id => match d, id with
     | .user, "u2" => some ⟨some "S1"⟩
     | _, _ => none,
   fun _ _ => [],
   fun d _ _ _ => match d with
     | .product => [pFields]
     | .user => [],
   fun _ _ => []⟩

/-- Two events at elapsed times 3600 s and 0 s relative to the hardcoded
reference instant. -/
def es4 : List Interaction := [⟨NOW_TS - 3600, "a"⟩, ⟨NOW_TS, "b"⟩]

/-- Two events at elapsed times 0 s and 7200 s relative to the hardcoded
reference instant. -/
def es5 : List Interaction := [⟨NOW_TS, "a"⟩, ⟨NOW_TS - 7200, "b"⟩]

/- Vector algebra lemmas about the numpy operations used by the blender. -/

theorem sumSq_nonneg (v : Vec) : 0 ≤ sumSq v := by
  refine List.sum_nonneg ?_
  intro x hx
  simp only [List.mem_map] at hx
  obtain ⟨y, _, rfl⟩ := hx
  positivity

theorem norm2_nonneg (v : Vec) : 0 ≤ norm2 v := Real.sqrt_nonneg _

theorem norm2_pos_iff (v : Vec) : 0 < norm2 v ↔ 0 < sumSq v := by
  unfold norm2
  rw [Real.sqrt_pos]

theorem sumSq_vdiv (v : Vec) (t : ℝ) : sumSq (vdiv v t) = sumSq v / t ^ 2 := by
  unfold sumSq vdiv
  induction v with
  | nil => simp
  | cons x xs ih =>
      simp only [List.map_cons, List.sum_cons, List.map_map] at ih ⊢
      rw [ih, div_pow, div_add_div_same]

theorem sumSq_vscale (a : ℝ) (v : Vec) : sumSq (vscale a v) = a ^ 2 * sumSq v := by
  unfold sumSq vscale
  induction v with
  | nil => simp
  | cons x xs ih =>
      simp only [List.map_cons, List.sum_cons, List.map_map] at ih ⊢
      rw [ih, mul_pow, mul_add]

theorem norm2_vdiv (v : Vec) (t : ℝ) (ht : 0 < t) : norm2 (vdiv v t) = norm2 v / t := by
  unfold norm2
  rw [sumSq_vdiv]
  rw [show sumSq v / t ^ 2 = (Real.sqrt (sumSq v) / t) ^ 2 by
    rw [div_pow, Real.sq_sqrt (sumSq_nonneg v)]]
  exact Real.sqrt_sq (by positivity)

theorem norm2_vscale (a : ℝ) (v : Vec) (ha : 0 ≤ a) : norm2 (vscale a v) = a * norm2 v := by
  unfold norm2
  rw [sumSq_vscale, Real.sqrt_mul (by positivity), Real.sqrt_sq ha]

theorem normalize_unit (v : Vec) (h : 0 < norm2 v) :
    norm2 (normalize_vector v) = 1 := by
  unfold normalize_vector
  rw [if_pos h, norm2_vdiv v _ h, div_self (ne_of_gt h)]

theorem normalize_length (v : Vec) : (normalize_vector v).length = v.length := by
  unfold normalize_vector
  split
  · simp [vdiv]
  · rfl

theorem sumSq_eq_zero_all (v : Vec) (h : sumSq v = 0) : ∀ x ∈ v, x = 0 := by
  induction v with
  | nil => simp
  | cons x xs ih =>
      unfold sumSq at h ih
      simp only [List.map_cons, List.sum_cons] at h
      have hx2 : 0 ≤ x ^ 2 := by positivity
      have hs : 0 ≤ (xs.map (fun x => x ^ 2)).sum := sumSq_nonneg xs
      have h1 : x ^ 2 = 0 := by nlinarith
      have h2 : (xs.map (fun x => x ^ 2)).sum = 0 := by nlinarith
      intro y hy
      rcases List.mem_cons.mp hy with rfl | hmem
      · exact pow_eq_zero_iff (n := 2) (by norm_num) |>.mp h1
      · exact ih h2 y hmem

theorem norm2_eq_zero_all (v : Vec) (h : norm2 v = 0) : ∀ x ∈ v, x = 0 := by
  refine sumSq_eq_zero_all v ?_
  unfold norm2 at h
  exact (Real.sqrt_eq_zero (sumSq_nonneg v)).mp h

theorem vscale_of_all_zero (c : ℝ) (v : Vec) (h : ∀ x ∈ v, x = 0) :
    vscale c v = v := by
  unfold vscale
  induction v with
  | nil => rfl
  | cons x xs ih =>
      have hx := h x (List.mem_cons_self _ _)
      simp only [List.map_cons]
      rw [ih (fun y hy => h y (List.mem_cons_of_mem _ hy)), hx, mul_zero]

theorem vdiv_eq_vscale_inv (v : Vec) (t : ℝ) : vdiv v t = vscale t⁻¹ v := by
  unfold vdiv vscale
  exact List.map_congr_left (fun x _ => div_eq_inv_mul x t)

theorem vscale_one (v : Vec) : vscale 1 v = v := by
  unfold vscale
  simp

theorem vscale_vscale (a b : ℝ) (v : Vec) : vscale a (vscale b v) = vscale (a * b) v := by
  unfold vscale
  rw [List.map_map]
  exact List.map_congr_left (fun x _ => by simp [mul_assoc])

theorem vadd_assoc (u v w : Vec) : vadd (vadd u v) w = vadd u (vadd v w) := by
  unfold vadd
  induction u generalizing v w with
  | nil => simp
  | cons x xs ih =>
      cases v with
      | nil => simp
      | cons y ys =>
          cases w with
          | nil => simp
          | cons z zs =>
              simp only [List.zipWith_cons_cons]
              rw [ih, add_assoc]

theorem vadd_vscale_same (a b : ℝ) (v : Vec) :
    vadd (vscale a v) (vscale b v) = vscale (a + b) v := by
  unfold vadd vscale
  induction v with
  | nil => rfl
  | cons x xs ih =>
      simp only [List.map_cons, List.zipWith_cons_cons]
      rw [ih, add_mul]

theorem normalize_vscale_pos (c : ℝ) (hc : 0 < c) (v : Vec) :
    normalize_vector (vscale c v) = normalize_vector v := by
  by_cases h : 0 < norm2 v
  · have h2 : 0 < norm2 (vscale c v) := by
      rw [norm2_vscale c v (le_of_lt hc)]
      positivity
    unfold normalize_vector
    rw [if_pos h, if_pos h2, norm2_vscale c v (le_of_lt hc)]
    unfold vdiv vscale
    rw [List.map_map]
    exact List.map_congr_left (fun x _ => by
      simp only [Function.comp_apply]
      rw [mul_div_mul_left x (norm2 v) (ne_of_gt hc)])
  · have h0 : norm2 v = 0 := le_antisymm (not_lt.mp h) (norm2_nonneg v)
    rw [vscale_of_all_zero c v (norm2_eq_zero_all v h0)]

theorem normalize_idem (v : Vec) :
    normalize_vector (normalize_vector v) = normalize_vector v := by
  by_cases h : 0 < norm2 v
  · have h1 : norm2 (normalize_vector v) = 1 := normalize_unit v h
    unfold normalize_vector
    rw [if_pos h]
    rw [show normalize_vector v = vdiv v (norm2 v) from by unfold normalize_vector; rw [if_pos h]] at h1
    rw [if_pos (h1 ▸ one_pos), h1]
    unfold vdiv
    simp
  · unfold normalize_vector
    rw [if_neg h, if_neg h]

theorem normalize_pair (x y : ℝ) (h : 0 < norm2 [x, y]) :
    normalize_vector [x, y] = [x / norm2 [x, y], y / norm2 [x, y]] := by
  unfold normalize_vector
  rw [if_pos h]
  rfl

theorem norm2_pair_pos_of_snd (x y : ℝ) (hy : y ≠ 0) : 0 < norm2 [x, y] := by
  rw [norm2_pos_iff]
  unfold sumSq
  simp only [List.map_cons, List.map_nil, List.sum_cons, List.sum_nil, add_zero]
  positivity

theorem normalize_pair_ratio_ne (y1 y2 r1 r2 : ℝ)
    (hy1 : 0 < y1) (hy2 : 0 < y2) (hr : r1 ≠ r2) :
    normalize_vector [r1 * y1, y1] ≠ normalize_vector [r2 * y2, y2] := by
  have h1 : 0 < norm2 [r1 * y1, y1] := norm2_pair_pos_of_snd _ _ (ne_of_gt hy1)
  have h2 : 0 < norm2 [r2 * y2, y2] := norm2_pair_pos_of_snd _ _ (ne_of_gt hy2)
  rw [normalize_pair _ _ h1, normalize_pair _ _ h2]
  intro h
  simp only [List.cons.injEq, and_true] at h
  obtain ⟨ha, hb⟩ := h
  have hyq : 0 < y1 / norm2 [r1 * y1, y1] := by positivity
  rw [mul_div_assoc, mul_div_assoc, hb] at ha
  exact hr (mul_right_cancel₀ (by positivity) ha)

/- Decay-weight lemmas. -/

theorem HALF_LIFE_eq : HALF_LIFE = 3600 := by norm_num [HALF_LIFE]

theorem decay_lambda_pos : 0 < decay_lambda :=
  div_pos (Real.log_pos (by norm_num)) (by norm_num [HALF_LIFE])

theorem decayW_pos (ts : ℝ) : 0 < decayW ts := Real.exp_pos _

theorem decayW_now : decayW NOW_TS = 1 := by
  unfold decayW
  rw [sub_self, max_self, mul_zero, Real.exp_zero]

theorem decayW_future (ts : ℝ) (h : NOW_TS ≤ ts) : decayW ts = 1 := by
  unfold decayW
  rw [max_eq_left (by linarith), mul_zero, Real.exp_zero]

theorem decayW_elapsed (d : ℝ) (h : 0 ≤ d) :
    decayW (NOW_TS - d) = Real.exp (-decay_lambda * d) := by
  unfold decayW
  rw [sub_sub_cancel, max_eq_right h]

theorem decayW_strict (d1 d2 : ℝ) (h1 : 0 ≤ d1) (h12 : d1 < d2) :
    decayW (NOW_TS - d2) < decayW (NOW_TS - d1) := by
  rw [decayW_elapsed d1 h1, decayW_elapsed d2 (le_trans h1 (le_of_lt h12))]
  exact Real.exp_lt_exp.mpr (by nlinarith [decay_lambda_pos])

theorem decay_lambda_mul_HALF_LIFE : decay_lambda * HALF_LIFE = Real.log 2 := by
  unfold decay_lambda
  exact div_mul_cancel₀ _ (by norm_num [HALF_LIFE])

theorem exp_neg_log_two : Real.exp (-Real.log 2) = 1 / 2 := by
  rw [Real.exp_neg, Real.exp_log (by norm_num : (0:ℝ) < 2)]
  norm_num

theorem decayW_half : decayW (NOW_TS - HALF_LIFE) = 1 / 2 := by
  rw [decayW_elapsed HALF_LIFE (by norm_num [HALF_LIFE])]
  rw [show -decay_lambda * HALF_LIFE = -Real.log 2 by
    rw [neg_mul, decay_lambda_mul_HALF_LIFE]]
  exact exp_neg_log_two

theorem decayW_3600 : decayW (NOW_TS - 3600) = 1 / 2 := by
  rw [show (3600 : ℝ) = HALF_LIFE from HALF_LIFE_eq.symm]
  exact decayW_half

theorem decayW_7200 : decayW (NOW_TS - 7200) = 1 / 4 := by
  rw [decayW_elapsed 7200 (by norm_num)]
  rw [show -decay_lambda * 7200 = -Real.log 2 + -Real.log 2 by
    unfold decay_lambda HALF_LIFE; field_simp; ring]
  rw [Real.exp_add, exp_neg_log_two]
  norm_num

/- Characterization of the blender loop. -/

theorem crv_foldl (resolve : String → Option Vec) (es : List Interaction)
    (l : List Vec) (t : ℝ) :
    es.foldl
      (fun (p : List Vec × ℝ) i =>
        match resolve i.id_value with
        | none => p
        | some v => (p.1 ++ [vscale (decayW i.event_ts) v], p.2 + decayW i.event_ts))
      (l, t)
    = (l ++ es.filterMap (fun e =>
          (resolve e.id_value).map (fun v => vscale (decayW e.event_ts) v)),
       t + ((es.filter (fun e => (resolve e.id_value).isSome)).map
          (fun e => decayW e.event_ts)).sum) := by
  induction es generalizing l t with
  | nil => simp
  | cons e es ih =>
      cases h : resolve e.id_value with
      | none =>
          simp only [List.foldl_cons, h, List.filterMap_cons, List.filter_cons]
          simp [h, ih]
      | some v =>
          simp only [List.foldl_cons, h, List.filterMap_cons, List.filter_cons]
          simp [h, ih, List.append_assoc, add_assoc]

theorem compute_realtime_vector_eq (st : Store) (s : ServiceSettings) (base : Vec)
    (itype : DocType) (es : List Interaction) (mv : Option String)
    (h1 : es.isEmpty = false)
    (h2 : es.all (fun i =>
        (st.vectors itype i.id_value (pyOr mv s.latest_model_version)).isNone) = false) :
    compute_realtime_vector st s base itype es mv =
      (normalize_vector (vadd (vscale s.recommend_alpha base)
         (vscale s.recommend_beta (normalize_vector (vdiv
            (vsum (es.filterMap (fun e =>
              (st.vectors itype e.id_value (pyOr mv s.latest_model_version)).map
                (fun v => vscale (decayW e.event_ts) v))))
            ((es.filter (fun e =>
              (st.vectors itype e.id_value (pyOr mv s.latest_model_version)).isSome)).map
                (fun e => decayW e.event_ts)).sum)))),
       [Call.batchFetchCall itype (es.map (fun i => i.id_value))
          (pyOr mv s.latest_model_version)]) := by
  unfold compute_realtime_vector
  rw [if_neg (by simp [h1]), if_neg (by simp [h2])]
  rw [crv_foldl (fun id => st.vectors itype id (pyOr mv s.latest_model_version)) es [] 0]
  simp

theorem crv_eq_blend_spec (st : Store) (s : ServiceSettings) (base : Vec)
    (itype : DocType) (es : List Interaction) (mv : Option String) :
    (compute_realtime_vector st s base itype es mv).1 =
      blend_spec NOW_TS HALF_LIFE s.recommend_alpha s.recommend_beta
        (fun id => st.vectors itype id (pyOr mv s.latest_model_version)) base es := by
  by_cases h1 : es.isEmpty = true
  · simp [compute_realtime_vector, blend_spec, h1]
  · have h1' : es.isEmpty = false := by simpa using h1
    by_cases h2 : es.all (fun i =>
        (st.vectors itype i.id_value (pyOr mv s.latest_model_version)).isNone) = true
    · simp [compute_realtime_vector, blend_spec, h1', h2]
    · have h2' : es.all (fun i =>
          (st.vectors itype i.id_value (pyOr mv s.latest_model_version)).isNone) = false := by
        simpa using h2
      rw [compute_realtime_vector_eq st s base itype es mv h1' h2']
      simp [blend_spec, h1', h2', decayW, decay_lambda]

theorem vadd_vscale_zero : ∀ (b w : Vec), b.length = w.length → vadd (vscale 0 b) w = w := by
  intro b
  induction b with
  | nil =>
      intro w h
      cases w with
      | nil => rfl
      | cons y ys => simp at h
  | cons x xs ih =>
      intro w h
      cases w with
      | nil => simp at h
      | cons y ys =>
          have := ih ys (by simpa using h)
          simp only [vadd, vscale, List.map_cons, List.zipWith_cons_cons, zero_mul,
            zero_add] at this ⊢
          rw [this]

theorem combined_alpha_zero (b v : Vec) (h : b.length = v.length) :
    normalize_vector (vadd (vscale 0 b) (vscale 1 (normalize_vector v))) =
      normalize_vector v := by
  rw [vscale_one, vadd_vscale_zero b _ (by rw [normalize_length]; exact h), normalize_idem]

theorem crv_two (st : Store) (s : ServiceSettings) (base : Vec) (itype : DocType)
    (mv : Option String) (t1 t2 : ℝ) (a b : String) (v1 v2 : Vec)
    (hv1 : st.vectors itype a (pyOr mv s.latest_model_version) = some v1)
    (hv2 : st.vectors itype b (pyOr mv s.latest_model_version) = some v2) :
    (compute_realtime_vector st s base itype [⟨t1, a⟩, ⟨t2, b⟩] mv).1 =
      normalize_vector (vadd (vscale s.recommend_alpha base)
        (vscale s.recommend_beta (normalize_vector (vdiv
          (vadd (vscale (decayW t1) v1) (vscale (decayW t2) v2))
          (decayW t1 + decayW t2))))) := by
  rw [compute_realtime_vector_eq st s base itype [⟨t1, a⟩, ⟨t2, b⟩] mv rfl
    (by simp [hv1])]
  simp [hv1, hv2, vsum]

theorem crv_three (st : Store) (s : ServiceSettings) (base : Vec) (itype : DocType)
    (mv : Option String) (t1 t2 t3 : ℝ) (a b c : String) (v1 v2 v3 : Vec)
    (hv1 : st.vectors itype a (pyOr mv s.latest_model_version) = some v1)
    (hv2 : st.vectors itype b (pyOr mv s.latest_model_version) = some v2)
    (hv3 : st.vectors itype c (pyOr mv s.latest_model_version) = some v3) :
    (compute_realtime_vector st s base itype [⟨t1, a⟩, ⟨t2, b⟩, ⟨t3, c⟩] mv).1 =
      normalize_vector (vadd (vscale s.recommend_alpha base)
        (vscale s.recommend_beta (normalize_vector (vdiv
          (vadd (vscale (decayW t1) v1)
            (vadd (vscale (decayW t2) v2) (vscale (decayW t3) v3)))
          (decayW t1 + (decayW t2 + decayW t3)))))) := by
  rw [compute_realtime_vector_eq st s base itype [⟨t1, a⟩, ⟨t2, b⟩, ⟨t3, c⟩] mv rfl
    (by simp [hv1])]
  simp [hv1, hv2, hv3, vsum, add_assoc]

theorem blend_spec_two (now hl alpha beta : ℝ) (resolve : String → Option Vec)
    (base : Vec) (t1 t2 : ℝ) (a b : String) (v1 v2 : Vec)
    (hv1 : resolve a = some v1) (hv2 : resolve b = some v2) :
    blend_spec now hl alpha beta resolve base [⟨t1, a⟩, ⟨t2, b⟩] =
      normalize_vector (vadd (vscale alpha base)
        (vscale beta (normalize_vector (vdiv
          (vadd (vscale (Real.exp (-(Real.log 2 / hl) * max 0 (now - t1))) v1)
            (vscale (Real.exp (-(Real.log 2 / hl) * max 0 (now - t2))) v2))
          (Real.exp (-(Real.log 2 / hl) * max 0 (now - t1)) +
            Real.exp (-(Real.log 2 / hl) * max 0 (now - t2))))))) := by
  unfold blend_spec
  simp [hv1, hv2, vsum]

theorem crv_calls (st : Store) (s : ServiceSettings) (base : Vec) (itype : DocType)
    (es : List Interaction) (mv : Option String) (h : es.isEmpty = false) :
    (compute_realtime_vector st s base itype es mv).2 =
      [Call.batchFetchCall itype (es.map (fun i => i.id_value))
        (pyOr mv s.latest_model_version)] := by
  unfold compute_realtime_vector
  rw [if_neg (by simp [h])]
  dsimp only
  split <;> rfl

theorem crv_trace_batch (st : Store) (s : ServiceSettings) (base : Vec)
    (itype : DocType) (es : List Interaction) (mv : Option String) :
    ∀ c ∈ (compute_realtime_vector st s base itype es mv).2,
      ∃ d ids m, c = Call.batchFetchCall d ids m := by
  intro c hc
  unfold compute_realtime_vector at hc
  by_cases h : es.isEmpty = true
  · rw [if_pos h] at hc
    simp at hc
  · rw [if_neg h] at hc
    dsimp only at hc
    split at hc <;>
      · simp only [List.mem_singleton] at hc
        exact ⟨_, _, _, hc⟩

theorem segErr_ne_metaErr (d : DocType) (uid sid : String) :
    Err.http 404 (segMsg sid) ≠ Err.http 404 (metaMsg d uid) := by
  intro h
  simp only [Err.http.injEq, true_and] at h
  have h2 := congrArg String.data h
  simp [segMsg, metaMsg, String.data_append] at h2

/-- C7: for every event, the blender's decay weight equals
`exp(-(ln 2 / half_life) * max(0, now - event_timestamp))` with the
hardcoded half-life (3600 s) and reference instant: the weight of an event
with `event_timestamp = now` is 1, future timestamps are clamped to
weight 1, the weight strictly decreases as elapsed time increases, and at
elapsed time equal to the half-life it is exactly 1/2. -/
theorem claim7_decay_weight :
    (∀ ts : ℝ, decayW ts = Real.exp (-(Real.log 2 / HALF_LIFE) * max 0 (NOW_TS - ts))) ∧
    decayW NOW_TS = 1 ∧
    (∀ ts : ℝ, NOW_TS ≤ ts → decayW ts = 1) ∧
    (∀ d1 d2 : ℝ, 0 ≤ d1 → d1 < d2 → decayW (NOW_TS - d2) < decayW (NOW_TS - d1)) ∧
    decayW (NOW_TS - HALF_LIFE) = 1 / 2 :=
  ⟨fun ts => by rw [decayW, decay_lambda],
   decayW_now, decayW_future, decayW_strict, decayW_half⟩

/-- Witness for C7: strict decrease between elapsed times 0 and 3600. -/
theorem claim7_decay_weight_witness :
    (0 : ℝ) ≤ 0 ∧ (0 : ℝ) < 3600 ∧ decayW (NOW_TS - 3600) < decayW (NOW_TS - 0) :=
  ⟨le_refl 0, by norm_num,
   claim7_decay_weight.2.2.2.1 0 3600 (le_refl 0) (by norm_num)⟩

/-- C4 (amended): the blender is a deterministic pure function of its
inputs — it coincides with the spec's injected-clock blender — but the
reference instant is not an explicit parameter: it is frozen at the
constant `NOW_TS` hardcoded inside `_compute_realtime_vector`, together
with the hardcoded half-life. -/
theorem claim4_blender_pure_frozen_clock :
    ∀ (st : Store) (s : ServiceSettings) (base : Vec) (itype : DocType)
      (es : List Interaction) (mv : Option String),
    (compute_realtime_vector st s base itype es mv).1 =
      blend_spec NOW_TS HALF_LIFE s.recommend_alpha s.recommend_beta
        (fun id => st.vectors itype id (pyOr mv s.latest_model_version)) base es :=
  crv_eq_blend_spec

/-- Counterexample for C4: `now` is not supplied to the blender as a
parameter.  Evaluated at a request instant one hour after the events'
reference point (so that event `"b"` is no longer in the future), the
injected-clock blender of the spec disagrees with the code's blender on a
concrete input, because the code weights events against the frozen
constant `NOW_TS` instead of the supplied clock. -/
theorem claim4_counterexample :
    (compute_realtime_vector st4 s01 [1, 0] .product es4 none).1 ≠
      blend_spec (NOW_TS - 3600) HALF_LIFE 0 1
        (fun id => st4.vectors .product id "m1") [1, 0] es4 := by
  have hc := crv_two st4 s01 [1, 0] .product none (NOW_TS - 3600) NOW_TS "a" "b"
    [1, 0] [0, 1] (by simp [st4, s01, pyOr]) (by simp [st4, s01, pyOr])
  have hs := blend_spec_two (NOW_TS - 3600) HALF_LIFE 0 1
    (fun id => st4.vectors .product id "m1") [1, 0] (NOW_TS - 3600) NOW_TS "a" "b"
    [1, 0] [0, 1] (by simp [st4]) (by simp [st4])
  rw [show es4 = [(⟨NOW_TS - 3600, "a"⟩ : Interaction), ⟨NOW_TS, "b"⟩] from rfl, hc, hs]
  rw [decayW_3600, decayW_now]
  rw [sub_self, max_self, mul_zero, Real.exp_zero]
  rw [show NOW_TS - 3600 - NOW_TS = (-3600 : ℝ) by ring,
    show max (0 : ℝ) (-3600) = 0 from max_eq_left (by norm_num), mul_zero,
    Real.exp_zero]
  simp only [s01]
  rw [show vdiv (vadd (vscale ((1 : ℝ)/2) [1, 0]) (vscale 1 [0, 1])) (1/2 + 1) =
      [(1 : ℝ)/3, 2/3] by simp [vscale, vadd, vdiv]; norm_num]
  rw [show vdiv (vadd (vscale (1 : ℝ) [1, 0]) (vscale 1 [0, 1])) (1 + 1) =
      [(1 : ℝ)/2, 1/2] by simp [vscale, vadd, vdiv]; norm_num]
  rw [combined_alpha_zero [1, 0] [(1 : ℝ)/3, 2/3] (by simp),
    combined_alpha_zero [1, 0] [(1 : ℝ)/2, 1/2] (by simp)]
  rw [show [(1 : ℝ)/3, 2/3] = [(1/2) * (2/3), (2/3)] by norm_num,
    show [(1 : ℝ)/2, 1/2] = [(1 : ℝ) * (1/2), (1/2)] by norm_num]
  exact normalize_pair_ratio_ne (2/3) (1/2) (1/2) 1 (by norm_num) (by norm_num)
    (by norm_num)

/-- C5 (amended): only the result count and the candidate pool size are
declared configuration options, with documented defaults 5 and 10; the
decay half-life is the hardcoded constant 3600 s inside the blender (the
blender otherwise coincides with the spec blender at that fixed
half-life and the frozen clock, for every settings valuation). -/
theorem claim5_configuration :
    defaultSettings.recommend_hits = 5 ∧
    defaultSettings.recommend_target_hits = 10 ∧
    HALF_LIFE = 3600 ∧
    (∀ (st : Store) (s : ServiceSettings) (base : Vec) (itype : DocType)
        (es : List Interaction) (mv : Option String),
      (compute_realtime_vector st s base itype es mv).1 =
        blend_spec NOW_TS 3600 s.recommend_alpha s.recommend_beta
          (fun id => st.vectors itype id (pyOr mv s.latest_model_version)) base es) :=
  ⟨rfl, rfl, HALF_LIFE_eq, fun st s base itype es mv => by
    rw [crv_eq_blend_spec st s base itype es mv, HALF_LIFE_eq]⟩

/-- Counterexample for C5: the decay half-life is not read from
configuration.  A deployment configuring a half-life of 7200 s would blend
differently from the code on a concrete input, because the code uses the
hardcoded 3600 s constant. -/
theorem claim5_counterexample :
    (compute_realtime_vector st4 s01 [1, 0] .product es5 none).1 ≠
      blend_spec NOW_TS 7200 0 1
        (fun id => st4.vectors .product id "m1") [1, 0] es5 := by
  have hc := crv_two st4 s01 [1, 0] .product none NOW_TS (NOW_TS - 7200) "a" "b"
    [1, 0] [0, 1] (by simp [st4, s01, pyOr]) (by simp [st4, s01, pyOr])
  have hs := blend_spec_two NOW_TS 7200 0 1
    (fun id => st4.vectors .product id "m1") [1, 0] NOW_TS (NOW_TS - 7200) "a" "b"
    [1, 0] [0, 1] (by simp [st4]) (by simp [st4])
  rw [show es5 = [(⟨NOW_TS, "a"⟩ : Interaction), ⟨NOW_TS - 7200, "b"⟩] from rfl, hc, hs]
  rw [decayW_now, decayW_7200]
  rw [sub_self, max_self, mul_zero, Real.exp_zero]
  rw [sub_sub_cancel, show max (0 : ℝ) 7200 = 7200 from max_eq_right (by norm_num),
    show -(Real.log 2 / 7200) * 7200 = -Real.log 2 by ring, exp_neg_log_two]
  simp only [s01]
  rw [show vdiv (vadd (vscale (1 : ℝ) [1, 0]) (vscale (1/4) [0, 1])) (1 + 1/4) =
      [(4 : ℝ)/5, 1/5] by simp [vscale, vadd, vdiv]; norm_num]
  rw [show vdiv (vadd (vscale (1 : ℝ) [1, 0]) (vscale (1/2) [0, 1])) (1 + 1/2) =
      [(2 : ℝ)/3, 1/3] by simp [vscale, vadd, vdiv]; norm_num]
  rw [combined_alpha_zero [1, 0] [(4 : ℝ)/5, 1/5] (by simp),
    combined_alpha_zero [1, 0] [(2 : ℝ)/3, 1/3] (by simp)]
  rw [show [(4 : ℝ)/5, 1/5] = [(4 : ℝ) * (1/5), (1/5)] by norm_num,
    show [(2 : ℝ)/3, 1/3] = [(2 : ℝ) * (1/3), (1/3)] by norm_num]
  exact normalize_pair_ratio_ne (1/5) (1/3) 4 2 (by norm_num) (by norm_num)
    (by norm_num)

/-- C6: for every nonempty event list with at least one resolvable
embedding, the blender returns
`normalize(alpha * base + beta * recent_vector)` where `recent_vector` is
the L2-normalization of the decay-weighted sum of the resolved embeddings
divided by the sum of weights; in particular for two events at elapsed
times 0 s and 3600 s (the half-life) with embeddings `v1`, `v2`, the
recent vector is `normalize(1 * v1 + (1/2) * v2)`. -/
theorem claim6_blend_formula :
    (∀ (st : Store) (s : ServiceSettings) (base : Vec) (itype : DocType)
        (es : List Interaction) (mv : Option String),
      es ≠ [] →
      (∃ e ∈ es, (st.vectors itype e.id_value (pyOr mv s.latest_model_version)).isSome) →
      (compute_realtime_vector st s base itype es mv).1 =
        normalize_vector (vadd (vscale s.recommend_alpha base)
          (vscale s.recommend_beta (normalize_vector (vdiv
            (vsum (es.filterMap (fun e =>
              (st.vectors itype e.id_value (pyOr mv s.latest_model_version)).map
                (fun v => vscale (decayW e.event_ts) v))))
            ((es.filter (fun e =>
              (st.vectors itype e.id_value (pyOr mv s.latest_model_version)).isSome)).map
                (fun e => decayW e.event_ts)).sum))))) ∧
    (∀ (st : Store) (s : ServiceSettings) (base : Vec) (itype : DocType)
        (mv : Option String) (a b : String) (v1 v2 : Vec),
      st.vectors itype a (pyOr mv s.latest_model_version) = some v1 →
      st.vectors itype b (pyOr mv s.latest_model_version) = some v2 →
      (compute_realtime_vector st s base itype
          [⟨NOW_TS, a⟩, ⟨NOW_TS - HALF_LIFE, b⟩] mv).1 =
        normalize_vector (vadd (vscale s.recommend_alpha base)
          (vscale s.recommend_beta
            (normalize_vector (vadd (vscale 1 v1) (vscale (1/2) v2)))))) := by
  constructor
  · intro st s base itype es mv h1 h2
    have h1' : es.isEmpty = false := by
      cases es with
      | nil => exact absurd rfl h1
      | cons e es => rfl
    have h2' : (es.all (fun i =>
        (st.vectors itype i.id_value (pyOr mv s.latest_model_version)).isNone)) = false := by
      obtain ⟨e, he, hsome⟩ := h2
      rcases Option.isSome_iff_exists.mp hsome with ⟨v, hv⟩
      refine List.all_eq_false.mpr ⟨e, he, ?_⟩
      simp [hv]
    exact congrArg Prod.fst (compute_realtime_vector_eq st s base itype es mv h1' h2')
  · intro st s base itype mv a b v1 v2 hv1 hv2
    rw [crv_two st s base itype mv NOW_TS (NOW_TS - HALF_LIFE) a b v1 v2 hv1 hv2]
    rw [decayW_now, decayW_half]
    rw [vdiv_eq_vscale_inv]
    rw [normalize_vscale_pos ((1 + 1/2 : ℝ))⁻¹ (by norm_num) _]

/-- Witness for C6: the half-life scenario at a concrete store. -/
theorem claim6_blend_formula_witness :
    st4.vectors .product "a" (pyOr none s0.latest_model_version) = some [1, 0] ∧
    st4.vectors .product "b" (pyOr none s0.latest_model_version) = some [0, 1] ∧
    (compute_realtime_vector st4 s0 [1, 0] .product
        [⟨NOW_TS, "a"⟩, ⟨NOW_TS - HALF_LIFE, "b"⟩] none).1 =
      normalize_vector (vadd (vscale s0.recommend_alpha [1, 0])
        (vscale s0.recommend_beta
          (normalize_vector (vadd (vscale 1 [1, 0]) (vscale (1/2) [0, 1]))))) :=
  ⟨by simp [st4, s0, pyOr], by simp [st4, s0, pyOr],
   claim6_blend_formula.2 st4 s0 [1, 0] .product none "a" "b" [1, 0] [0, 1]
     (by simp [st4, s0, pyOr]) (by simp [st4, s0, pyOr])⟩

/-- C10: when the same referenced id occurs several times in the recent
events, its embedding is fetched in the single batch round trip (the one
`batchFetchCall`, which lists one entry per event occurrence) but each
occurrence contributes its own decay weight: the weighted sum carries
`decayW t1 + decayW t2` on the shared embedding and the weight total sums
over all three occurrences. -/
theorem claim10_duplicate_events :
    ∀ (st : Store) (s : ServiceSettings) (base : Vec) (itype : DocType)
      (mv : Option String) (t1 t2 t3 : ℝ) (a b : String) (v w : Vec),
    st.vectors itype a (pyOr mv s.latest_model_version) = some v →
    st.vectors itype b (pyOr mv s.latest_model_version) = some w →
    compute_realtime_vector st s base itype [⟨t1, a⟩, ⟨t2, a⟩, ⟨t3, b⟩] mv =
      (normalize_vector (vadd (vscale s.recommend_alpha base)
        (vscale s.recommend_beta (normalize_vector (vdiv
          (vadd (vscale (decayW t1 + decayW t2) v) (vscale (decayW t3) w))
          (decayW t1 + decayW t2 + decayW t3))))),
       [Call.batchFetchCall itype [a, a, b] (pyOr mv s.latest_model_version)]) := by
  intro st s base itype mv t1 t2 t3 a b v w hv hw
  have h2 : (compute_realtime_vector st s base itype [⟨t1, a⟩, ⟨t2, a⟩, ⟨t3, b⟩] mv).2 =
      [Call.batchFetchCall itype [a, a, b] (pyOr mv s.latest_model_version)] := by
    rw [crv_calls st s base itype [⟨t1, a⟩, ⟨t2, a⟩, ⟨t3, b⟩] mv rfl]
    rfl
  have h1 := crv_three st s base itype mv t1 t2 t3 a a b v v w hv hv hw
  rw [← vadd_assoc, vadd_vscale_same, ← add_assoc] at h1
  exact Prod.ext_iff.mpr ⟨h1, h2⟩

/-- Witness for C10 at a concrete store with ids `"a", "a", "b"`. -/
theorem claim10_duplicate_events_witness :
    st4.vectors .product "a" (pyOr none s0.latest_model_version) = some [1, 0] ∧
    st4.vectors .product "b" (pyOr none s0.latest_model_version) = some [0, 1] ∧
    compute_realtime_vector st4 s0 [1, 0] .product
        [⟨NOW_TS, "a"⟩, ⟨NOW_TS, "a"⟩, ⟨NOW_TS, "b"⟩] none =
      (normalize_vector (vadd (vscale s0.recommend_alpha [1, 0])
        (vscale s0.recommend_beta (normalize_vector (vdiv
          (vadd (vscale (decayW NOW_TS + decayW NOW_TS) [1, 0])
            (vscale (decayW NOW_TS) [0, 1]))
          (decayW NOW_TS + decayW NOW_TS + decayW NOW_TS))))),
       [Call.batchFetchCall .product ["a", "a", "b"] (pyOr none s0.latest_model_version)]) :=
  ⟨by simp [st4, s0, pyOr], by simp [st4, s0, pyOr],
   claim10_duplicate_events st4 s0 [1, 0] .product none NOW_TS NOW_TS NOW_TS "a" "b"
     [1, 0] [0, 1] (by simp [st4, s0, pyOr]) (by simp [st4, s0, pyOr])⟩

theorem target_op_trace (st : Store) (s : ServiceSettings) (pid : String) :
    (get_target_users st s pid).2 =
      [Call.fetchVecCall .product pid s.latest_model_version,
       Call.annCall .user (st.vectors .product pid s.latest_model_version)
         s.recommend_hits s.recommend_target_hits] := rfl

theorem user_op_ann_query (st : Store) (s : ServiceSettings) (uid : String)
    (d : DocType) (q : Option Vec) (h t : Nat)
    (hmem : Call.annCall d q h t ∈ (get_product_recommendations st s uid).2) :
    ∃ base : Vec,
      q = some (compute_realtime_vector st s base .product
        (st.recent .user uid) none).1 := by
  simp only [get_product_recommendations, fetch_vector, fetch_metadata,
    get_recent_interactions, fetch_segment_vector, search_nearest] at hmem
  split at hmem
  · split at hmem
    · simp at hmem
    · split at hmem
      · simp at hmem
      · split at hmem
        · simp at hmem
        · simp only [List.mem_append, List.mem_cons, List.mem_singleton] at hmem
          rcases hmem with ((h1 | h1 | h1 | h1) | h1) | h1
          · simp at h1
          · simp at h1
          · simp at h1
          · simp at h1
          · obtain ⟨d', ids, m, hEq⟩ := crv_trace_batch st s _ .product _ none _ h1
            simp at hEq
          · rcases h1 with h1 | h1
            · rw [Call.annCall.injEq] at h1
              exact ⟨_, h1.2.1⟩
            · simp at h1
  · simp only [List.mem_append, List.mem_cons, List.mem_singleton] at hmem
    rcases hmem with ((h1 | h1) | h1) | h1
    · simp at h1
    · simp at h1
    · obtain ⟨d', ids, m, hEq⟩ := crv_trace_batch st s _ .product _ none _ h1
      simp at hEq
    · rcases h1 with h1 | h1
      · rw [Call.annCall.injEq] at h1
        exact ⟨_, h1.2.1⟩
      · simp at h1

/-- C2 (amended): when the base vector is absent and metadata exists
without a truthy `segment_id`, the user operation returns the empty list —
not an error — without consulting any cold-start strategy list (the
product operation has no metadata or cold-start path at all; see C1). -/
theorem claim2_no_segment_returns_empty :
    ∀ (st : Store) (s : ServiceSettings) (uid : String) (m : Meta),
    falsyV (st.vectors .user uid s.latest_model_version) = true →
    st.metadata .user uid = some m →
    pyStr m.segment_id = none →
    (get_product_recommendations st s uid).1 = Except.ok [] := by
  intro st s uid m hfal hmeta hseg
  simp [get_product_recommendations, fetch_vector, fetch_metadata,
    get_recent_interactions, fetch_segment_vector, search_nearest, pyOr,
    hfal, hmeta, hseg]

/-- Witness for C2 at the concrete store `st2`. -/
theorem claim2_no_segment_returns_empty_witness :
    falsyV (st2.vectors .user "u1" s0.latest_model_version) = true ∧
    st2.metadata .user "u1" = some ⟨none⟩ ∧
    pyStr (⟨none⟩ : Meta).segment_id = none ∧
    (get_product_recommendations st2 s0 "u1").1 = Except.ok [] :=
  ⟨rfl, by simp [st2], rfl,
   claim2_no_segment_returns_empty st2 s0 "u1" ⟨none⟩ rfl (by simp [st2]) rfl⟩

/-- Counterexample for C2: the operation does not return the flat
pre-ranked cold-start list for strategy `"global"`.  In `st2` the
cold-start table for `"global"` holds one ranked row, yet the user
operation returns the empty list rather than the projection of that
list. -/
theorem claim2_counterexample :
    st2.vectors .user "u1" s0.latest_model_version = none ∧
    st2.metadata .user "u1" = some ⟨none⟩ ∧
    resolve_cold_start_spec st2 s0 .user = [pFields] ∧
    (get_product_recommendations st2 s0 "u1").1 ≠
      Except.ok ((resolve_cold_start_spec st2 s0 .user).map projProduct) := by
  refine ⟨rfl, by simp [st2], ?_, ?_⟩
  · simp [resolve_cold_start_spec, st2, s0, List.insertionSort]
  · have hres : (get_product_recommendations st2 s0 "u1").1 = Except.ok [] := by
      simp [get_product_recommendations, fetch_vector, fetch_metadata,
        get_recent_interactions, fetch_segment_vector, search_nearest, pyOr, st2, s0, pyStr, falsyV]
    rw [hres]
    simp [resolve_cold_start_spec, st2, s0, List.insertionSort, projProduct, pFields]

/-- C8 (amended): in the user flow with an absent base vector and metadata
carrying a truthy `segment_id`, a found segment embedding becomes the base
vector and the flow proceeds through blend and dispatch as normal; a
missing (or empty) segment embedding fails with `NotFound`.  (When
`segment_id` is absent the operation returns an empty list instead of
failing; see the counterexample.) -/
theorem claim8_segment_flow :
    ∀ (st : Store) (s : ServiceSettings) (uid sid : String) (m : Meta),
    falsyV (st.vectors .user uid s.latest_model_version) = true →
    st.metadata .user uid = some m →
    pyStr m.segment_id = some sid →
    ((falsyV (st.segments .user sid) = true →
        (get_product_recommendations st s uid).1 =
          Except.error (Err.http 404 (segMsg sid))) ∧
     (∀ v : Vec, st.segments .user sid = some v → v ≠ [] →
        (get_product_recommendations st s uid).1 =
          Except.ok ((st.ann .product
            (some (compute_realtime_vector st s v .product
              (st.recent .user uid) none).1)
            s.recommend_hits s.recommend_target_hits).map projProduct))) := by
  intro st s uid sid m hfal hmeta hseg
  constructor
  · intro hsv
    simp [get_product_recommendations, fetch_vector, fetch_metadata,
      get_recent_interactions, fetch_segment_vector, search_nearest, pyOr,
      hfal, hmeta, hseg, hsv]
  · intro v hv hne
    have hsv : falsyV (some v) = false := by
      cases v with
      | nil => exact absurd rfl hne
      | cons x xs => rfl
    simp [get_product_recommendations, fetch_vector, fetch_metadata,
      get_recent_interactions, fetch_segment_vector, search_nearest, pyOr,
      hfal, hmeta, hseg, hsv, hv]

/-- Witness for C8 at the concrete store `st6` (segment found). -/
theorem claim8_segment_flow_witness :
    falsyV (st6.vectors .user "u2" s0.latest_model_version) = true ∧
    st6.metadata .user "u2" = some ⟨some "S1"⟩ ∧
    pyStr (⟨some "S1"⟩ : Meta).segment_id = some "S1" ∧
    st6.segments .user "S1" = some [1, 0] ∧
    (get_product_recommendations st6 s0 "u2").1 =
      Except.ok ((st6.ann .product
        (some (compute_realtime_vector st6 s0 [1, 0] .product
          (st6.recent .user "u2") none).1)
        s0.recommend_hits s0.recommend_target_hits).map projProduct) :=
  ⟨rfl, by simp [st6], rfl, by simp [st6],
   (claim8_segment_flow st6 s0 "u2" "S1" ⟨some "S1"⟩ rfl (by simp [st6]) rfl).2
     [1, 0] (by simp [st6]) (by simp)⟩

/-- Counterexample for C8: when `segment_id` is absent the claim says the
operation fails with `NotFound`, but the code returns an empty
`Except.ok` result. -/
theorem claim8_counterexample :
    falsyV (st2.vectors .user "u1" s0.latest_model_version) = true ∧
    st2.metadata .user "u1" = some ⟨none⟩ ∧
    (⟨none⟩ : Meta).segment_id = none ∧
    (get_product_recommendations st2 s0 "u1").1 = Except.ok [] ∧
    (Except.ok ([] : List ProductRec) ≠
      Except.error (Err.http 404 (metaMsg .user "u1"))) := by
  refine ⟨rfl, by simp [st2], rfl, ?_, by simp⟩
  simp [get_product_recommendations, fetch_vector, fetch_metadata,
    get_recent_interactions, fetch_segment_vector, search_nearest, pyOr, st2, s0, pyStr, falsyV]

/-- C9: in the user flow with an absent base vector, the operation fails
with the 404 `NotFound` error naming the requested id exactly when the
metadata lookup finds nothing — a metadata miss is the only condition
producing that error at this stage — and the error message contains the
original failing id verbatim. -/
theorem claim9_metadata_notfound :
    ∀ (st : Store) (s : ServiceSettings) (uid : String),
    falsyV (st.vectors .user uid s.latest_model_version) = true →
    ((((get_product_recommendations st s uid).1 =
        Except.error (Err.http 404 (metaMsg .user uid))) ↔
      st.metadata .user uid = none) ∧
     mentions uid (metaMsg .user uid)) := by
  intro st s uid hfal
  refine ⟨⟨?_, ?_⟩, ?_⟩
  · intro hres
    rcases hm : st.metadata .user uid with _ | m
    · rfl
    · exfalso
      rcases hseg : pyStr m.segment_id with _ | sid
      · have hok : (get_product_recommendations st s uid).1 = Except.ok [] := by
          simp [get_product_recommendations, fetch_vector, fetch_metadata,
            get_recent_interactions, fetch_segment_vector, search_nearest, pyOr,
            hfal, hm, hseg]
        rw [hok] at hres
        exact absurd hres (by simp)
      · by_cases hsv : falsyV (st.segments .user sid) = true
        · have herr : (get_product_recommendations st s uid).1 =
              Except.error (Err.http 404 (segMsg sid)) := by
            simp [get_product_recommendations, fetch_vector, fetch_metadata,
              get_recent_interactions, fetch_segment_vector, search_nearest, pyOr,
              hfal, hm, hseg, hsv]
          rw [herr] at hres
          rw [Except.error.injEq] at hres
          exact segErr_ne_metaErr .user uid sid hres
        · have hsv' : falsyV (st.segments .user sid) = false := by
            cases hfv : falsyV (st.segments .user sid)
            · rfl
            · exact absurd hfv hsv
          have hok : (get_product_recommendations st s uid).1 =
              Except.ok ((st.ann .product
                (some (compute_realtime_vector st s ((st.segments .user sid).getD [])
                  .product (st.recent .user uid) none).1)
                s.recommend_hits s.recommend_target_hits).map projProduct) := by
            simp [get_product_recommendations, fetch_vector, fetch_metadata,
              get_recent_interactions, fetch_segment_vector, search_nearest, pyOr,
              hfal, hm, hseg, hsv']
          rw [hok] at hres
          exact absurd hres (by simp)
  · intro hm
    simp [get_product_recommendations, fetch_vector, fetch_metadata,
      get_recent_interactions, fetch_segment_vector, search_nearest, pyOr, hfal, hm]
  · exact ⟨"Document '".data,
      "' not found in ".data ++ (docName .user).data ++ " schema".data, by
        simp [metaMsg, String.data_append]⟩

/-- Witness for C9 at the concrete store `st3` and the unknown id `"u2"`. -/
theorem claim9_metadata_notfound_witness :
    falsyV (st3.vectors .user "u2" s0.latest_model_version) = true ∧
    st3.metadata .user "u2" = none ∧
    (get_product_recommendations st3 s0 "u2").1 =
      Except.error (Err.http 404 (metaMsg .user "u2")) :=
  ⟨rfl, rfl, ((claim9_metadata_notfound st3 s0 "u2" rfl).1).mpr rfl⟩

/-- C1 (amended): only the user operation handles an absent base vector via
the metadata/segment path — every ANN dispatch it performs carries a
present query vector, and an unknown id propagates as the 404 `NotFound` —
while the product operation performs no cold-start handling at all: its
trace is always exactly the vector fetch followed by one ANN dispatch
whose query is whatever the fetch returned, the absent value included. -/
theorem claim1_cold_start_only_user_flow :
    (∀ (st : Store) (s : ServiceSettings) (uid : String) (d : DocType)
        (q : Option Vec) (h t : Nat),
      Call.annCall d q h t ∈ (get_product_recommendations st s uid).2 →
      ∃ v : Vec, q = some v) ∧
    (∀ (st : Store) (s : ServiceSettings) (pid : String),
      (get_target_users st s pid).2 =
        [Call.fetchVecCall .product pid s.latest_model_version,
         Call.annCall .user (st.vectors .product pid s.latest_model_version)
           s.recommend_hits s.recommend_target_hits]) ∧
    (∀ (st : Store) (s : ServiceSettings) (uid : String),
      falsyV (st.vectors .user uid s.latest_model_version) = true →
      st.metadata .user uid = none →
      (get_product_recommendations st s uid).1 =
        Except.error (Err.http 404 (metaMsg .user uid))) := by
  refine ⟨?_, ?_, ?_⟩
  · intro st s uid d q h t hmem
    obtain ⟨base, hq⟩ := user_op_ann_query st s uid d q h t hmem
    exact ⟨_, hq⟩
  · intro st s pid
    exact target_op_trace st s pid
  · intro st s uid hfal hm
    simp [get_product_recommendations, fetch_vector, fetch_metadata,
      get_recent_interactions, fetch_segment_vector, search_nearest, pyOr, hfal, hm]

/-- Witness for C1 at the concrete store `st3` and the unknown id `"u3"`. -/
theorem claim1_cold_start_only_user_flow_witness :
    falsyV (st3.vectors .user "u3" s0.latest_model_version) = true ∧
    st3.metadata .user "u3" = none ∧
    (get_product_recommendations st3 s0 "u3").1 =
      Except.error (Err.http 404 (metaMsg .user "u3")) :=
  ⟨rfl, rfl, claim1_cold_start_only_user_flow.2.2 st3 s0 "u3" rfl rfl⟩

/-- Counterexample for C1: in `st1` the product id `"p1"` has metadata but
no base vector, yet the product operation neither delegates to any
cold-start resolution nor fails with `NotFound`: it dispatches the
nearest-neighbor search using the absent (`none`) base vector as the query
and returns whatever the store answers to that query. -/
theorem claim1_counterexample :
    st1.vectors .product "p1" s0.latest_model_version = none ∧
    st1.metadata .product "p1" = some ⟨none⟩ ∧
    Call.annCall .user none 5 10 ∈ (get_target_users st1 s0 "p1").2 ∧
    (get_target_users st1 s0 "p1").1 = Except.ok [projUser uFields] := by
  refine ⟨rfl, by simp [st1], ?_, ?_⟩
  · simp [get_target_users, fetch_vector, search_nearest, st1, s0, pyOr]
  · simp [get_target_users, fetch_vector, search_nearest, st1, s0, pyOr]

/-- C3 (amended): `normalize_vector` yields a unit vector on any input of
nonzero norm and passes a zero-norm vector through unchanged; however the
dispatched query vector is normalized only through the blender output: the
user operation always dispatches the blender result (which is the raw,
un-normalized base vector whenever no recent event resolves), and the
product operation dispatches the raw fetched vector, absent or not,
without any normalization. -/
theorem claim3_query_normalization :
    (∀ v : Vec, 0 < norm2 v → norm2 (normalize_vector v) = 1) ∧
    (∀ v : Vec, norm2 v = 0 → normalize_vector v = v) ∧
    (∀ (st : Store) (s : ServiceSettings) (uid : String) (d : DocType)
        (q : Option Vec) (h t : Nat),
      Call.annCall d q h t ∈ (get_product_recommendations st s uid).2 →
      ∃ base : Vec,
        q = some (compute_realtime_vector st s base .product
          (st.recent .user uid) none).1) ∧
    (∀ (st : Store) (s : ServiceSettings) (pid : String) (d : DocType)
        (q : Option Vec) (h t : Nat),
      Call.annCall d q h t ∈ (get_target_users st s pid).2 →
      q = st.vectors .product pid s.latest_model_version) := by
  refine ⟨normalize_unit, ?_, user_op_ann_query, ?_⟩
  · intro v hz
    unfold normalize_vector
    rw [if_neg (by rw [hz]; exact lt_irrefl 0)]
  · intro st s pid d q h t hmem
    rw [target_op_trace st s pid] at hmem
    simp only [List.mem_cons, List.not_mem_nil, or_false] at hmem
    rcases hmem with h1 | h1
    · simp at h1
    · rw [Call.annCall.injEq] at h1
      exact h1.2.1

/-- Witness for C3: normalizing the non-unit vector `[2, 0]`. -/
theorem claim3_query_normalization_witness :
    0 < norm2 [(2 : ℝ), 0] ∧ norm2 (normalize_vector [(2 : ℝ), 0]) = 1 :=
  have hp : 0 < norm2 [(2 : ℝ), 0] := by
    rw [norm2_pos_iff]
    norm_num [sumSq]
  ⟨hp, claim3_query_normalization.1 [2, 0] hp⟩

/-- Counterexample for C3: with base vector `[2, 0]` (norm 2, not unit) and
no recent events, the user operation dispatches the ANN search with the
raw, non-normalized base vector as the query. -/
theorem claim3_counterexample :
    st3.recent .user "u1" = [] ∧
    Call.annCall .product (some [2, 0]) 5 10 ∈
      (get_product_recommendations st3 s0 "u1").2 ∧
    norm2 [(2 : ℝ), 0] ≠ 1 := by
  refine ⟨rfl, ?_, ?_⟩
  · simp [get_product_recommendations, fetch_vector, fetch_metadata,
      get_recent_interactions, fetch_segment_vector, search_nearest,
      compute_realtime_vector, pyOr, st3, s0, falsyV]
  · have h2 : norm2 [(2 : ℝ), 0] = 2 := by
      unfold norm2
      rw [show sumSq [(2 : ℝ), 0] = 4 by norm_num [sumSq]]
      rw [show (4 : ℝ) = 2 ^ 2 by norm_num]
      exact Real.sqrt_sq (by norm_num)
    rw [h2]
    norm_num

end

end RecSys
